import Mathlib

/-!
Verification of the Event/Registration synchronization layer of the
Unisphere mobile client (src/App.js).

The relevant JavaScript is shallowly embedded as pure Lean functions:

* Strings are Lean strings; the JavaScript helpers `toLowerCase`,
  `trim` and `includes` are embedded as `lowerStr`, `trimStr` and
  `strIncludes`, defined directly on the underlying character lists so
  that they evaluate by kernel reduction.
* `new Date(d).toLocaleDateString()` is a platform locale function that
  is not part of the repository; it is passed in as an explicit
  parameter `fmt : String -> String` wherever the code calls it.
* React component state (`useState` slots) becomes a record; each event
  handler becomes a function from the old record (plus the network
  responses it awaits) to the new record.
* Network calls issued by a handler are recorded in a `calls` trace so
  that "issues zero network calls" is a statement about the model.
* `Alert.alert` messages are recorded in an `alerts` trace.
-/

/-- JavaScript `s.toLowerCase()` (ASCII case folding on the character list). -/
def lowerStr (s : String) : String := ⟨s.data.map Char.toLower⟩

/-- JavaScript `s.trim()`: drop whitespace from both ends. -/
def trimStr (s : String) : String :=
  ⟨List.reverse (List.dropWhile Char.isWhitespace
    (List.reverse (List.dropWhile Char.isWhitespace s.data)))⟩

/-- Helper for `strIncludes`: does `needle` occur contiguously in the list? -/
def includesAux (needle : List Char) : List Char → Bool
  | [] => needle.isEmpty
  | c :: rest => List.isPrefixOf needle (c :: rest) || includesAux needle rest

/-- JavaScript `haystack.includes(needle)`: contiguous substring test. -/
def strIncludes (haystack needle : String) : Bool :=
  includesAux needle.data haystack.data

/-- An event as delivered by `GET events` (src/App.js uses `_id`, `title`,
`college`, `date`, `type`, `registrationFee`, `description`, `image`).
The `date` field is the raw wire string; locale rendering is external. -/
structure Event where
  id : String
  title : String
  college : String
  date : String
  type : String
  registrationFee : Nat
  description : String
  image : Option String
  deriving DecidableEq, Repr

/-- A registration as delivered by `GET registrations`: `_id`,
a populated `eventId` reference that is null when the referenced event
was deleted server-side, and `paymentStatus`. -/
structure Registration where
  id : String
  eventId : Option Event
  paymentStatus : String
  deriving DecidableEq, Repr

/-- The network requests a handler can issue (src/App.js api calls). -/
inductive ApiCall where
  | getEventsCall
  | getRegistrationsCall (token : String)
  | registerForEventCall (eventId token : String)
  | cancelRegistrationCall (registrationId token : String)
  deriving DecidableEq, Repr

/-- The event-matching predicate from the body of `handleSearch`
(src/App.js lines 121-130): the lowercased query is a substring of the
lowercased title, lowercased college, or lowercased formatted date. -/
def eventMatches (fmt : String → String) (lowerCaseQuery : String) (event : Event) : Bool :=
  let title := lowerStr event.title
  let college := lowerStr event.college
  let date := lowerStr (fmt event.date)
  strIncludes title lowerCaseQuery ||
    strIncludes college lowerCaseQuery ||
    strIncludes date lowerCaseQuery

/-- The pure filtering core of `handleSearch` (src/App.js lines 116-134):
empty-after-trim query keeps the whole list, otherwise `Array.filter`
with `eventMatches`. -/
def filterEvents (fmt : String → String) (events : List Event) (query : String) : List Event :=
  if trimStr query = "" then events
  else events.filter (eventMatches fmt (lowerStr query))

/-- Written from the words of the specification (section 4.3), for
comparison with `filterEvents`: case-insensitive substring match against
title, college and the locale-formatted date, OR across the three
fields; empty or whitespace-only query returns the full catalog. -/
def matchesSpec (fmt : String → String) (query : String) (e : Event) : Bool :=
  strIncludes (lowerStr e.title) (lowerStr query) ||
    strIncludes (lowerStr e.college) (lowerStr query) ||
    strIncludes (lowerStr (fmt e.date)) (lowerStr query)

/-- Specification-side filter (section 4.3 of the specification). -/
def filterSpec (fmt : String → String) (catalog : List Event) (query : String) : List Event :=
  if trimStr query = "" then catalog
  else catalog.filter (matchesSpec fmt query)

/-- The `useState` slots of `HomeScreen` (src/App.js lines 91-95). -/
structure HomeState where
  events : List Event
  filteredEvents : List Event
  loading : Bool
  error : Option String
  searchQuery : String
  deriving DecidableEq, Repr

/-- Initial `HomeScreen` state (src/App.js lines 91-95). -/
def initialHomeState : HomeState :=
  { events := [], filteredEvents := [], loading := true, error := none, searchQuery := "" }

/-- `fetchEvents` (src/App.js lines 97-108) applied to one resolved
network response: on success both `events` and `filteredEvents` are set
to the response data; on failure only the error message and the loading
flag change. -/
def fetchEvents (s : HomeState) (response : Except String (List Event)) : HomeState :=
  match response with
  | Except.ok data =>
      { s with events := data, filteredEvents := data, loading := false }
  | Except.error _ =>
      { s with error := some "Failed to fetch events. Please try again later.",
               loading := false }

/-- `handleSearch` (src/App.js lines 116-134): store the query, then set
`filteredEvents` to the whole catalog for a blank query, or to the
filtered catalog otherwise. -/
def handleSearch (fmt : String → String) (query : String) (s : HomeState) : HomeState :=
  if trimStr query = "" then
    { s with searchQuery := query, filteredEvents := s.events }
  else
    { s with searchQuery := query,
             filteredEvents := s.events.filter (eventMatches fmt (lowerStr query)) }

/-- What the `HomeScreen` body renders (src/App.js lines 145-202):
the loading spinner, the error-only screen, or the event list. -/
inductive HomeRender where
  | loadingView
  | errorView (msg : String)
  | eventList (visible : List Event)
  deriving DecidableEq, Repr

/-- The render branching of `HomeScreen` (src/App.js lines 145-161):
`if (loading) ...; if (error) ...;` else the list of `filteredEvents`. -/
def renderHome (s : HomeState) : HomeRender :=
  if s.loading then HomeRender.loadingView
  else
    match s.error with
    | some msg => HomeRender.errorView msg
    | none => HomeRender.eventList s.filteredEvents

/-- Several catalog refreshes resolving in some order: each resolution
runs the continuation of `fetchEvents` (src/App.js lines 97-108), which
unconditionally overwrites the state; the code carries no request
identity, so responses are applied purely in completion order. -/
def runResolutions (s : HomeState) (resolutions : List (Except String (List Event))) : HomeState :=
  resolutions.foldl fetchEvents s

/-- Screen lifecycle events relevant to refresh coalescing: a focus
transition, and the completion of one in-flight request. -/
inductive UiEvent where
  | focus
  | complete
  deriving DecidableEq, Repr

/-- Effect of one lifecycle event on the number of in-flight refresh
requests: `useFocusEffect` (src/App.js lines 110-114 and 533-537)
invokes the fetch unconditionally on every focus, with no in-flight
guard, so each focus adds one pending request. -/
def stepInFlight (inFlight : Nat) : UiEvent → Nat
  | UiEvent.focus => inFlight + 1
  | UiEvent.complete => inFlight - 1

/-- Number of concurrently in-flight refresh requests after a trace of
lifecycle events, starting from none. -/
def inFlightAfter (trace : List UiEvent) : Nat :=
  trace.foldl stepInFlight 0

/-- The `useState` slots of `MyRegistrationsScreen` (src/App.js
lines 510-512). -/
structure RegState where
  registrations : List Registration
  loading : Bool
  error : Option String
  deriving DecidableEq, Repr

/-- Result of one ledger operation: the new screen state and the trace
of network requests it issued. -/
structure RegOutcome where
  state : RegState
  calls : List ApiCall
  deriving DecidableEq, Repr

/-- `fetchRegistrations` (src/App.js lines 514-531): set loading, read
the token; with no token set the log-in error and issue no request;
otherwise call `getRegistrations` and either replace the ledger or set
the fetch error. -/
def fetchRegistrations (token : Option String)
    (response : Except String (List Registration)) (s : RegState) : RegOutcome :=
  let s := { s with loading := true }
  match token with
  | none =>
      { state := { s with error := some "Please log in to view your registrations.",
                          loading := false },
        calls := [] }
  | some t =>
      match response with
      | Except.ok data =>
          { state := { s with registrations := data, loading := false },
            calls := [ApiCall.getRegistrationsCall t] }
      | Except.error _ =>
          { state := { s with error := some "Failed to fetch registrations. Please try again later.",
                              loading := false },
            calls := [ApiCall.getRegistrationsCall t] }

/-- Result of the cancel flow: new screen state, network trace, and the
`Alert.alert` messages shown. -/
structure CancelOutcome where
  state : RegState
  calls : List ApiCall
  alerts : List String
  deriving DecidableEq, Repr

/-- The confirmed branch of `handleCancelRegistration` (src/App.js
lines 539-568): read the token; with no token set the log-in error and
stop; otherwise call `cancelRegistration`; on failure only alert; on
success alert and then run `fetchRegistrations` (a roundtrip refresh;
the ledger is never mutated locally). -/
def handleCancelRegistration (registrationId : String) (token : Option String)
    (cancelResponse : Except String Unit)
    (refreshResponse : Except String (List Registration))
    (s : RegState) : CancelOutcome :=
  match token with
  | none =>
      { state := { s with error := some "Please log in to cancel a registration." },
        calls := [], alerts := [] }
  | some t =>
      match cancelResponse with
      | Except.error _ =>
          { state := s,
            calls := [ApiCall.cancelRegistrationCall registrationId t],
            alerts := ["Failed to cancel registration. Please try again."] }
      | Except.ok _ =>
          let refreshed := fetchRegistrations token refreshResponse s
          { state := refreshed.state,
            calls := ApiCall.cancelRegistrationCall registrationId t :: refreshed.calls,
            alerts := ["Registration cancelled successfully!"] }

/-- Result of the register flow from `EventDetailsScreen`: the
registrations ledger visible elsewhere in the app (threaded through
unchanged, as `handleRegister` never touches it), the local error and
loading slots, the network trace, the alerts, and whether the screen
navigated back. -/
structure RegisterOutcome where
  ledger : List Registration
  error : Option String
  loading : Bool
  calls : List ApiCall
  alerts : List String
  navigatedBack : Bool
  deriving DecidableEq, Repr

/-- `handleRegister` (src/App.js lines 414-433): read the token; with no
token set the log-in error and stop; otherwise call `registerForEvent`;
on success alert and navigate back; on failure set the error. No
statement in the body writes to the registrations ledger. -/
def handleRegister (eventId : String) (token : Option String)
    (response : Except String Unit) (ledger : List Registration) : RegisterOutcome :=
  match token with
  | none =>
      { ledger := ledger, error := some "Please log in to register for an event.",
        loading := false, calls := [], alerts := [], navigatedBack := false }
  | some t =>
      match response with
      | Except.ok _ =>
          { ledger := ledger, error := none, loading := false,
            calls := [ApiCall.registerForEventCall eventId t],
            alerts := ["Registration successful!"], navigatedBack := true }
      | Except.error _ =>
          { ledger := ledger, error := some "Failed to register for the event. Please try again.",
            loading := false, calls := [ApiCall.registerForEventCall eventId t],
            alerts := [], navigatedBack := false }

/-- One rendered registration card (src/App.js lines 581-633): the title
line, the optional college and date rows, the optional payment-status
badge, and the id the Cancel button passes to
`handleCancelRegistration`. -/
structure RenderedRegistration where
  titleText : String
  collegeText : Option String
  dateText : Option String
  statusBadge : Option String
  cancelTargetId : String
  deriving DecidableEq, Repr

/-- `renderRegistration` (src/App.js lines 581-633): a registration with
a null `eventId` renders the degraded Event Not Found card, still with a
Cancel button wired to the registration id; otherwise the full card. -/
def renderRegistration (fmt : String → String) (item : Registration) : RenderedRegistration :=
  match item.eventId with
  | none =>
      { titleText := "Event Not Found", collegeText := none, dateText := none,
        statusBadge := none, cancelTargetId := item.id }
  | some ev =>
      { titleText := ev.title, collegeText := some ev.college,
        dateText := some (fmt ev.date), statusBadge := some item.paymentStatus,
        cancelTargetId := item.id }

/-- Concrete event used in counterexamples. -/
def evHack : Event :=
  { id := "e1", title := "Hack Day", college := "MIT", date := "2025-03-01",
    type := "technical", registrationFee := 0, description := "", image := none }

/-- A second concrete event, distinct from `evHack`. -/
def evExpo : Event :=
  { id := "e2", title := "Science Expo", college := "IISc", date := "2025-04-02",
    type := "technical", registrationFee := 50, description := "", image := none }

/-- Concrete registration r1 used in counterexamples. -/
def regR1 : Registration := { id := "r1", eventId := none, paymentStatus := "pending" }

/-- Concrete registration r2 used in counterexamples. -/
def regR2 : Registration := { id := "r2", eventId := none, paymentStatus := "paid" }

/-- Claim C1: for every catalog and every query, the search filter
returns exactly the events whose lowercased title, lowercased college,
or lowercased locale-formatted date contains the lowercased query as a
substring (OR across the three fields), and an empty or whitespace-only
query returns the full catalog unfiltered: the filtered view computed by
`handleSearch` coincides with the specification-side `filterSpec`. -/
theorem c1_search_filter_matches_spec (fmt : String → String) (s : HomeState) (query : String) :
    (handleSearch fmt query s).filteredEvents = filterSpec fmt s.events query := by
  unfold handleSearch filterSpec
  by_cases h : trimStr query = ""
  · simp [h]
  · simp [h]
    rfl

/-- Claim C7: the filter is a pure projection: re-filtering an already
filtered catalog with the same query changes nothing, filtering with the
empty query is the identity, and `handleSearch` leaves the underlying
catalog untouched. -/
theorem c7_filter_pure_projection (fmt : String → String) (C : List Event) (q : String)
    (s : HomeState) :
    filterEvents fmt (filterEvents fmt C q) q = filterEvents fmt C q ∧
    filterEvents fmt C "" = C ∧
    (handleSearch fmt q s).events = s.events := by
  refine ⟨?_, ?_, ?_⟩
  · unfold filterEvents
    by_cases h : trimStr q = ""
    · simp [h]
    · simp [h]
  · have h0 : trimStr "" = "" := by decide
    simp [filterEvents, h0]
  · unfold handleSearch
    by_cases h : trimStr q = "" <;> simp [h]

/-- Claim C10: after every successful catalog fetch the visible filtered
view is set to the entire fetched list while the query text is left in
place, so the invariant filteredEvents = filterEvents events searchQuery
can fail after a refresh performed under a non-empty query. -/
theorem c10_refresh_resets_filtered_view :
    (∀ (s : HomeState) (data : List Event),
        (fetchEvents s (Except.ok data)).filteredEvents = data ∧
        (fetchEvents s (Except.ok data)).events = data ∧
        (fetchEvents s (Except.ok data)).searchQuery = s.searchQuery) ∧
    (∃ (s : HomeState) (data : List Event) (fmt : String → String),
        trimStr s.searchQuery ≠ "" ∧
        (fetchEvents s (Except.ok data)).filteredEvents ≠
          filterEvents fmt (fetchEvents s (Except.ok data)).events
            (fetchEvents s (Except.ok data)).searchQuery) := by
  constructor
  · intro s data
    refine ⟨rfl, rfl, rfl⟩
  · refine ⟨{ events := [], filteredEvents := [], loading := false, error := none,
              searchQuery := "zzz" }, [evHack], fun d => d, ?_, ?_⟩
    · decide
    · decide

/-- Claim C4 counterexample: after a successful fetch of one event, a
failed refresh keeps the event in state, yet the screen renders the
error-only view instead of continuing to display the data with a
supplementing error message. -/
theorem c4_counterexample :
    (fetchEvents (fetchEvents initialHomeState (Except.ok [evHack]))
        (Except.error "network")).events = [evHack] ∧
    (fetchEvents (fetchEvents initialHomeState (Except.ok [evHack]))
        (Except.error "network")).events ≠ [] ∧
    renderHome (fetchEvents (fetchEvents initialHomeState (Except.ok [evHack]))
        (Except.error "network"))
      = HomeRender.errorView "Failed to fetch events. Please try again later." := by
  refine ⟨by decide, by decide, by decide⟩

/-- Claim C4 as amended: a failed fetch leaves the previously fetched
event data intact in state (events and filteredEvents unchanged) and
sets the fetch error, but the screen then renders the error-only view
even when data had loaded; the old data is retained, not displayed. -/
theorem c4_amended (s : HomeState) (msg : String) :
    (fetchEvents s (Except.error msg)).events = s.events ∧
    (fetchEvents s (Except.error msg)).filteredEvents = s.filteredEvents ∧
    (fetchEvents s (Except.error msg)).error
      = some "Failed to fetch events. Please try again later." ∧
    renderHome (fetchEvents s (Except.error msg))
      = HomeRender.errorView "Failed to fetch events. Please try again later." := by
  refine ⟨rfl, rfl, rfl, ?_⟩
  simp [fetchEvents, renderHome]

/-- Claim C2 counterexample: on the ledger r1, r2 a successful cancel of
r1 does not remove the entry from the snapshot immediately: the code
issues a roundtrip `getRegistrations` refresh, and when that refresh
fails the ledger still contains r1 after the successful cancel. -/
theorem c2_counterexample :
    (handleCancelRegistration "r1" (some "tok") (Except.ok ()) (Except.error "network")
        { registrations := [regR1, regR2], loading := false, error := none }).state.registrations
      = [regR1, regR2] ∧
    (handleCancelRegistration "r1" (some "tok") (Except.ok ()) (Except.ok [regR2])
        { registrations := [regR1, regR2], loading := false, error := none }).calls
      = [ApiCall.cancelRegistrationCall "r1" "tok", ApiCall.getRegistrationsCall "tok"] := by
  refine ⟨by decide, by decide⟩

/-- Claim C2 as amended: a successful cancel removes the entry via a
roundtrip ledger refresh rather than a local mutation: the final ledger
equals the refreshed server snapshot when the refresh succeeds and is
unchanged when the refresh fails; on cancel failure the ledger is left
untouched (no partial removal) and the error is surfaced as an alert. -/
theorem c2_amended (rid t : String) (s : RegState) (data : List Registration)
    (e1 e2 : String) (rr : Except String (List Registration)) :
    ((handleCancelRegistration rid (some t) (Except.ok ()) (Except.ok data) s).state.registrations
        = data ∧
      (handleCancelRegistration rid (some t) (Except.ok ()) (Except.ok data) s).calls
        = [ApiCall.cancelRegistrationCall rid t, ApiCall.getRegistrationsCall t] ∧
      (handleCancelRegistration rid (some t) (Except.ok ()) (Except.ok data) s).alerts
        = ["Registration cancelled successfully!"]) ∧
    ((handleCancelRegistration rid (some t) (Except.error e1) rr s).state = s ∧
      (handleCancelRegistration rid (some t) (Except.error e1) rr s).alerts
        = ["Failed to cancel registration. Please try again."]) ∧
    (handleCancelRegistration rid (some t) (Except.ok ()) (Except.error e2) s).state.registrations
        = s.registrations := by
  refine ⟨⟨rfl, rfl, rfl⟩, ⟨rfl, rfl⟩, rfl⟩

/-- Claim C3: with an absent session token, ledger refresh, register and
cancel each fail with the log-in error and issue zero network calls. -/
theorem c3_unauthenticated_guard (s : RegState) (resp : Except String (List Registration))
    (rid eid : String) (cresp rresp2 : Except String Unit)
    (rresp : Except String (List Registration)) (ledger : List Registration) :
    ((fetchRegistrations none resp s).calls = [] ∧
      (fetchRegistrations none resp s).state.error
        = some "Please log in to view your registrations.") ∧
    ((handleRegister eid none rresp2 ledger).calls = [] ∧
      (handleRegister eid none rresp2 ledger).error
        = some "Please log in to register for an event.") ∧
    ((handleCancelRegistration rid none cresp rresp s).calls = [] ∧
      (handleCancelRegistration rid none cresp rresp s).state.error
        = some "Please log in to cancel a registration.") := by
  refine ⟨⟨rfl, rfl⟩, ⟨rfl, rfl⟩, ⟨rfl, rfl⟩⟩

/-- Claim C5: every registration in the ledger is rendered (one card per
entry, none dropped), a registration whose event reference does not
resolve renders as the degraded Event Not Found card rather than an
error, and every card, orphaned or not, carries a Cancel button wired to
the registration id. -/
theorem c5_orphaned_registration (fmt : String → String) (regs : List Registration)
    (i ps : String) :
    (regs.map (renderRegistration fmt)).length = regs.length ∧
    renderRegistration fmt { id := i, eventId := none, paymentStatus := ps }
      = { titleText := "Event Not Found", collegeText := none, dateText := none,
          statusBadge := none, cancelTargetId := i } ∧
    (∀ reg : Registration, (renderRegistration fmt reg).cancelTargetId = reg.id) := by
  refine ⟨List.length_map regs (renderRegistration fmt), rfl, ?_⟩
  intro reg
  cases h : reg.eventId <;> simp [renderRegistration, h]

/-- Claim C6: register never synthesizes a ledger entry: for every token
and response the registrations ledger is passed through unchanged, and
on success the immediate effects are exactly the confirmation alert,
back navigation and the single register network call. -/
theorem c6_register_no_local_ledger_mutation (eid t : String) (token : Option String)
    (resp : Except String Unit) (ledger : List Registration) :
    (handleRegister eid token resp ledger).ledger = ledger ∧
    ((handleRegister eid (some t) (Except.ok ()) ledger).alerts = ["Registration successful!"] ∧
      (handleRegister eid (some t) (Except.ok ()) ledger).navigatedBack = true ∧
      (handleRegister eid (some t) (Except.ok ()) ledger).calls
        = [ApiCall.registerForEventCall eid t]) := by
  constructor
  · cases token with
    | none => rfl
    | some u => cases resp <;> rfl
  · refine ⟨rfl, rfl, rfl⟩

/-- Claim C8 counterexample: refresh A is issued first and resolves to
the list containing evHack, refresh B is issued later and resolves first
to the list containing evExpo; applying the responses in completion
order, the final visible state holds the result of A, the refresh that
resolved last, not the result of the later-issued B. -/
theorem c8_counterexample :
    (runResolutions initialHomeState
        [Except.ok [evExpo], Except.ok [evHack]]).events = [evHack] ∧
    [evHack] ≠ [evExpo] := by
  refine ⟨by decide, by decide⟩

/-- Claim C8 as amended: there is no stale-write rejection: whichever
refresh resolves last overwrites the state, so after any sequence of
resolutions ending with a successful one carrying data d, the visible
events and filtered view equal d regardless of issue order. -/
theorem c8_last_response_wins (s : HomeState) (prior : List (Except String (List Event)))
    (d : List Event) :
    (runResolutions s (prior ++ [Except.ok d])).events = d ∧
    (runResolutions s (prior ++ [Except.ok d])).filteredEvents = d := by
  unfold runResolutions
  rw [List.foldl_append]
  refine ⟨rfl, rfl⟩

/-- Claim C9 counterexample: two focus events with no completion in
between leave two refresh requests concurrently in flight, so a pending
refresh is not coalesced with a new focus-triggered one. -/
theorem c9_counterexample :
    inFlightAfter [UiEvent.focus, UiEvent.focus] = 2 := by decide

/-- Helper for the amended C9: folding the in-flight counter over n
focus events adds n to any starting count. -/
theorem foldl_stepInFlight_replicate_focus (n k : Nat) :
    List.foldl stepInFlight k (List.replicate n UiEvent.focus) = k + n := by
  induction n generalizing k with
  | zero => simp
  | succ m ih =>
      rw [List.replicate_succ]
      simp only [List.foldl_cons, stepInFlight, ih]
      omega

/-- Claim C9 as amended: every focus event fires a refresh request
immediately and unconditionally: n focus transitions with no intervening
completion leave n refresh requests concurrently in flight; there is no
deduplication or coalescing of pending refreshes. -/
theorem c9_focus_fires_unconditionally (n : Nat) :
    inFlightAfter (List.replicate n UiEvent.focus) = n := by
  unfold inFlightAfter
  rw [foldl_stepInFlight_replicate_focus]
  omega
